import Mathlib

/-
Shallow embedding of the geotech probabilistic sampling engine
(src/geotech/distributions.py, soils.py, loads.py, config.py) and proofs
about the claims of its specification.

Modelling conventions:
* Python floats are modelled as rationals (every float value is a rational);
  quantities produced by transcendental functions (exp, sqrt, powers, pi)
  live in the reals.
* The process-wide numpy generator (config.rng) is modelled as a stream of
  underlying draws together with a position; drawing n values returns the
  next n stream values and advances the position.
* Python exceptions are modelled with Except; the error type records which
  exception class is raised.
-/

namespace Geotech

/-- Python exception classes that the embedded code can raise. -/
inductive PyError where
  | typeError
  | valueError
  | attributeError
deriving DecidableEq, Repr

/-- The process-wide pseudorandom generator (config.rng): an infinite stream of
underlying unit/standard draws and a current position. -/
structure Rng where
  stream : ℕ → ℚ
  pos : ℕ

/-- Draw n underlying values from the generator, advancing its position. -/
def Rng.draw (rng : Rng) (n : ℕ) : List ℚ × Rng :=
  ((List.range n).map fun i => rng.stream (rng.pos + i), ⟨rng.stream, rng.pos + n⟩)

/-- The Config singleton: trial count. The source sets iterations = 1000 and
seeds the generator with 42 when the singleton is first created. -/
structure Config where
  iterations : ℕ

/-- The process-wide configuration object used by every module. -/
def config : Config := ⟨1000⟩

/-- A constructed ParameterDistribution object: its concrete class and the
`sample_values` vector cached by `__init__`. -/
inductive ParameterDistribution where
  | uniform (lower upper : ℚ) (sample_values : List ℝ)
  | normal (mean std : ℚ) (sample_values : List ℝ)
  | lognormal (mu sigma : ℚ) (sample_values : List ℝ)
  | constant (value : ℚ) (sample_values : List ℝ)

/-- The cached vector self.sample_values. -/
def ParameterDistribution.sample_values : ParameterDistribution → List ℝ
  | .uniform _ _ v => v
  | .normal _ _ v => v
  | .lognormal _ _ v => v
  | .constant _ v => v

/-- Uniform.__init__: stores the bounds and caches
config.rng.uniform(lower, upper, size=config.iterations).
numpy's Generator.uniform computes lower + (upper − lower)·u for each
underlying unit draw u; it validates only that upper − lower is finite, so
lower > upper is accepted and silently yields draws from the reversed range. -/
def Uniform.init (lower upper : ℚ) (cfg : Config) (rng : Rng) :
    ParameterDistribution × Rng :=
  let (us, rng') := rng.draw cfg.iterations
  (.uniform lower upper (us.map fun u => ((lower + (upper - lower) * u : ℚ) : ℝ)), rng')

/-- Normal.__init__: stores mean/std and caches
config.rng.normal(mean, std, size=config.iterations). numpy's
Generator.normal computes mean + std·g for standard-normal draws g, and
raises ValueError when std < 0 (scale must be non-negative). -/
def Normal.init (mean std : ℚ) (cfg : Config) (rng : Rng) :
    Except PyError (ParameterDistribution × Rng) :=
  if std < 0 then .error .valueError
  else
    let (gs, rng') := rng.draw cfg.iterations
    .ok (.normal mean std (gs.map fun g => ((mean + std * g : ℚ) : ℝ)), rng')

/-- LogNormal.__init__: stores the underlying mean/std and caches
config.rng.lognormal(mu, sigma, size=config.iterations). numpy's
Generator.lognormal computes exp(mu + sigma·g) for standard-normal draws g,
and raises ValueError when sigma < 0. -/
noncomputable def LogNormal.init (mu sigma : ℚ) (cfg : Config) (rng : Rng) :
    Except PyError (ParameterDistribution × Rng) :=
  if sigma < 0 then .error .valueError
  else
    let (gs, rng') := rng.draw cfg.iterations
    .ok (.lognormal mu sigma (gs.map fun g => Real.exp ((mu + sigma * g : ℚ) : ℝ)), rng')

/-- Constant.__init__: stores the value and caches
np.ones(config.iterations) * value. The constructor never references
config.rng, so the generator is returned unchanged. -/
def Constant.init (value : ℚ) (cfg : Config) (rng : Rng) :
    ParameterDistribution × Rng :=
  (.constant value (List.replicate cfg.iterations ((1 * value : ℚ) : ℝ)), rng)

/-- An argument to ParameterDistribution.sample: a Python scalar (the default
is the float 0.0) or a list of floats. -/
inductive CoordArg where
  | scalar (x : ℚ)
  | list (xs : List ℚ)

/-- Python len(): a list has a length; calling len on an int or float raises
TypeError. -/
def CoordArg.pyLen : CoordArg → Except PyError ℕ
  | .scalar _ => .error .typeError
  | .list xs => .ok xs.length

/-- A numpy array of shape (a, b, c, iterations), as produced by
np.broadcast_to(sample_values, (a, b, c, iterations)). -/
abbrev Arr4 := List (List (List (List ℝ)))

/-- ParameterDistribution.sample(northings, eastings, elevations). The loop
that was meant to replace scalar arguments by one-element lists rebinds only
the loop variable `param`, so the arguments keep the values the caller passed;
len() is then applied to them as they are, and raises TypeError on the scalar
defaults. On success the cached sample_values (always of length
config.iterations) are broadcast to shape (a, b, c, iterations) and copied. -/
def ParameterDistribution.sample (d : ParameterDistribution) (cfg : Config)
    (northings eastings elevations : CoordArg) : Except PyError Arr4 := do
  let a ← northings.pyLen
  let b ← eastings.pyLen
  let c ← elevations.pyLen
  -- np.broadcast_to requires the trailing dimension of the target shape to
  -- match len(sample_values) (length 1 would also broadcast, but every
  -- constructor caches exactly config.iterations values); otherwise ValueError.
  if d.sample_values.length = cfg.iterations then
    pure (List.replicate a (List.replicate b (List.replicate c d.sample_values)))
  else .error .valueError

/-- A call d.sample() with no arguments, as every caller in the repository
performs: the defaults northings = eastings = elevations = 0.0 apply. -/
def ParameterDistribution.sampleDefault (d : ParameterDistribution) (cfg : Config) :
    Except PyError Arr4 :=
  d.sample cfg (.scalar 0) (.scalar 0) (.scalar 0)

/-- A fixed generator state used for concrete evaluations. -/
def rng0 : Rng := ⟨fun _ => 0, 0⟩

/-- A value held in an attribute that the constructors of SoilLayer, WaterTable
and PointLoad accept: either a ParameterDistribution object or a raw Python
scalar (int/float). -/
inductive FieldVal where
  | dist (d : ParameterDistribution)
  | scalar (x : ℚ)

/-- isinstance(value, ParameterDistribution). -/
def FieldVal.isParameterDistribution : FieldVal → Bool
  | .dist _ => true
  | .scalar _ => false

/-- value.sample(): on a ParameterDistribution this is the no-argument call
(scalar defaults apply); a raw int/float has no attribute `sample`, so the
lookup raises AttributeError. -/
def FieldVal.sampleDefault (cfg : Config) : FieldVal → Except PyError Arr4
  | .dist d => d.sampleDefault cfg
  | .scalar _ => .error .attributeError

/-- An attribute value as the wrap loops of the constructors see it while
iterating over self.__dict__: the string name, a raw numeric scalar, or a
ParameterDistribution object. -/
inductive PyAttr where
  | str (s : String)
  | num (x : ℚ)
  | dist (d : ParameterDistribution)

/-- One iteration of the wrap loop on one attribute. The assignment
`attr_value = Constant(attr_value)` rebinds only the loop variable, so no
attribute ever changes — but the right-hand side still executes: a
ParameterDistribution is skipped by the isinstance guard; Constant(number)
builds np.ones(iterations) * number, which succeeds and is discarded;
Constant(string) evaluates np.ones(iterations) * string, for which numpy has
no multiply loop, raising UFuncTypeError — a subclass of TypeError. -/
def wrapLoopStep : PyAttr → Except PyError Unit
  | .dist _ => .ok ()
  | .num _ => .ok ()
  | .str _ => .error .typeError

/-- The wrap loop over the attribute values of self.__dict__, in insertion
order. -/
def wrapLoop (attrs : List PyAttr) : Except PyError Unit :=
  attrs.foldlM (fun _ a => wrapLoopStep a) ()

/-- The __dict__ entry stored for a distribution-or-scalar argument. -/
def FieldVal.toAttr : FieldVal → PyAttr
  | .scalar x => .num x
  | .dist d => .dist d

/-- The attribute state of a SoilLayer object: the name and the nine property
attributes as __init__ sets them before its wrap loop runs. The constructor
itself always raises before returning (see SoilLayer.init), so the program
never obtains a value of this type. -/
structure SoilLayer where
  name : String
  elevation_top : FieldVal
  elevation_bottom : FieldVal
  wet_density : FieldVal
  dry_density : FieldVal
  cohesion : FieldVal
  angle_of_internal_friction : FieldVal
  compression_index : FieldVal
  recompression_index : FieldVal
  initial_void_ratio : FieldVal

/-- SoilLayer.__init__: sets the name and the nine property attributes exactly
as passed, then runs the wrap loop over self.__dict__, whose first entry is
the string name. The loop changes no attribute, but evaluating
Constant(self.name) raises TypeError (np.ones(iterations) * string has no
numpy multiply loop), so the constructor never returns: no SoilLayer object
is constructible, whatever the other arguments are. -/
def SoilLayer.init (name : String)
    (elevation_top elevation_bottom wet_density dry_density cohesion
      angle_of_internal_friction compression_index recompression_index
      initial_void_ratio : FieldVal) : Except PyError SoilLayer := do
  let _ ← wrapLoop (.str name ::
    ([elevation_top, elevation_bottom, wet_density, dry_density, cohesion,
      angle_of_internal_friction, compression_index, recompression_index,
      initial_void_ratio].map FieldVal.toAttr))
  pure ⟨name, elevation_top, elevation_bottom, wet_density, dry_density, cohesion,
    angle_of_internal_friction, compression_index, recompression_index,
    initial_void_ratio⟩

/-- A constructed PointLoad object. -/
structure PointLoad where
  load : FieldVal
  elevation_load : FieldVal
  x_load : FieldVal
  y_load : FieldVal

/-- PointLoad.__init__: stores the four values as passed. Its wrap loop runs
over numeric or distribution attributes only, so every executed
Constant(number) succeeds and is discarded by the loop-variable rebinding:
the constructor returns with the attributes exactly as the caller supplied
them (unlike SoilLayer, whose string name makes the loop raise). -/
def PointLoad.init (load elevation_load x_load y_load : FieldVal) : PointLoad :=
  ⟨load, elevation_load, x_load, y_load⟩

/-- A constructed WaterTable object. -/
structure WaterTable where
  water_table_elevation : FieldVal
  gradient : FieldVal

/-- WaterTable.__init__: stores the two values as passed. As for PointLoad,
its wrap loop sees only numeric or distribution attributes, so the discarded
Constant(number) calls succeed and the constructor returns with the
attributes unchanged. -/
def WaterTable.init (water_table_elevation gradient : FieldVal) : WaterTable :=
  ⟨water_table_elevation, gradient⟩

/-- PoreWaterPressure.water_unit_weight = 9.81 kN/m3. -/
def WaterTable.water_unit_weight : ℚ := 981 / 100

/-- Elementwise map over a 4-d sample array. -/
def Arr4.emap (f : ℝ → ℝ) (a : Arr4) : Arr4 :=
  a.map fun p => p.map fun q => q.map fun r => r.map f

/-- Elementwise combination of two 4-d sample arrays of equal shape. -/
def Arr4.ezip (f : ℝ → ℝ → ℝ) (a b : Arr4) : Arr4 :=
  List.zipWith (List.zipWith (List.zipWith (List.zipWith f))) a b

/-- WaterTable.sample(elevation): samples the water-table elevation (this call
already raises, see ParameterDistribution.sample), forms the hydrostatic term
(wte − elevation)·9.81, then samples the gradient and adds the artesian term
(wte − elevation)·9.81·gradient. -/
def WaterTable.sample (wt : WaterTable) (cfg : Config) (elevation : ℚ) :
    Except PyError Arr4 := do
  let wtev ← wt.water_table_elevation.sampleDefault cfg
  let hydrostatic :=
    wtev.emap fun v => (v - (elevation : ℝ)) * (WaterTable.water_unit_weight : ℝ)
  let gradv ← wt.gradient.sampleDefault cfg
  let artesian :=
    (wtev.emap fun v => (v - (elevation : ℝ)) * (WaterTable.water_unit_weight : ℝ)).ezip
      (fun hv g => hv * g) gradv
  pure (hydrostatic.ezip (fun hv av => hv + av) artesian)

/-- The per-trial value WaterTable.sample computes from a sampled water-table
elevation w and gradient g at a query elevation: the hydrostatic term plus the
artesian term. -/
def waterTablePressure (w elevation g : ℚ) : ℚ :=
  (w - elevation) * WaterTable.water_unit_weight
    + (w - elevation) * WaterTable.water_unit_weight * g

/-- Sort key of a layer with a raw-scalar elevation_top. Only ever applied
under the guard that every key in the list being sorted is a raw scalar:
ParameterDistribution objects define no ordering (comparing them raises, see
addLayerList), so no numeric key exists for them and the .dist branch of this
function is never reached by the sort. -/
def SoilLayer.topKey (l : SoilLayer) : ℚ :=
  match l.elevation_top with
  | .scalar x => x
  | .dist _ => 0

/-- Insert a layer into a list that is already in descending topKey order,
after every layer of greater or equal key: the stable descending insertion
that Python's stable sort performs. -/
def insertLayerDesc (l : SoilLayer) : List SoilLayer → List SoilLayer
  | [] => [l]
  | h :: t => if l.topKey ≤ h.topKey then h :: insertLayerDesc l t else l :: h :: t

/-- Stable sort of a layer list into descending topKey order, as
list.sort(key=lambda x: x.elevation_top, reverse=True) produces on raw-scalar
keys. -/
def sortLayersDesc (ls : List SoilLayer) : List SoilLayer :=
  ls.foldl (fun acc l => insertLayerDesc l acc) []

/-- The body of SoilProfile.add_layer on a layer list: self.layers.append(layer)
always happens first; self.layers.sort(key=lambda x: x.elevation_top,
reverse=True) then sorts by comparing the elevation_top values. Raw scalars
compare numerically and produce the stable descending sort; a list of one
element needs no comparison; otherwise ParameterDistribution objects define
no ordering, so the sort raises TypeError as soon as it must compare one —
CPython then leaves the in-place list in a partially processed order it does
not specify, so in that case only the error is returned here. -/
def addLayerList (ls0 : List SoilLayer) (l : SoilLayer) :
    Except PyError (List SoilLayer) :=
  let ls := ls0 ++ [l]
  if ls.all fun x => !x.elevation_top.isParameterDistribution then
    .ok (sortLayersDesc ls)
  else if ls.length ≤ 1 then .ok ls
  else .error .typeError

/-- The pore_water_pressure argument of SoilProfile.__init__: a raw scalar, a
ParameterDistribution (the default is Constant(0.0)), or a PoreWaterPressure
model such as a WaterTable. -/
inductive PWPArg where
  | scalar (v : ℚ)
  | dist (d : ParameterDistribution)
  | model (m : WaterTable)

/-- A constructed SoilProfile object (value view; the aliasing of the mutable
default layers argument is modelled separately below). -/
structure SoilProfile where
  layers : List SoilLayer
  porewater_pressure : ParameterDistribution

/-- SoilProfile.__init__: stores the layer list and the pore-water-pressure
argument. The guard tests isinstance(·, ParameterDistribution) — not
PoreWaterPressure — so any non-distribution value, including a WaterTable
model, is passed to Constant(·). For a raw scalar that wraps it as a Constant
distribution; for a WaterTable model, Constant.__init__ evaluates
np.ones(iterations) * model, and multiplying a float array by a WaterTable
object raises TypeError. -/
def SoilProfile.init (cfg : Config) (rng : Rng) (layers : List SoilLayer)
    (pore_water_pressure : PWPArg) : Except PyError SoilProfile :=
  match pore_water_pressure with
  | .dist d => .ok ⟨layers, d⟩
  | .scalar v => .ok ⟨layers, (Constant.init v cfg rng).1⟩
  | .model _ => .error .typeError

/-- SoilProfile.add_layer(layer): append then re-sort (see addLayerList). -/
def SoilProfile.add_layer (p : SoilProfile) (l : SoilLayer) :
    Except PyError SoilProfile :=
  (addLayerList p.layers l).map fun ls => ⟨ls, p.porewater_pressure⟩

/-- The nine per-property .sample() calls get_samples performs for one layer,
in source order, paired with the dict keys they are stored under. -/
def SoilLayer.sampleAll (layer : SoilLayer) (cfg : Config) :
    Except PyError (List (String × Arr4)) := do
  let et ← layer.elevation_top.sampleDefault cfg
  let eb ← layer.elevation_bottom.sampleDefault cfg
  let wd ← layer.wet_density.sampleDefault cfg
  let dd ← layer.dry_density.sampleDefault cfg
  let c ← layer.cohesion.sampleDefault cfg
  let aif ← layer.angle_of_internal_friction.sampleDefault cfg
  let ci ← layer.compression_index.sampleDefault cfg
  let ri ← layer.recompression_index.sampleDefault cfg
  let ivr ← layer.initial_void_ratio.sampleDefault cfg
  pure [("elevation_top", et), ("elevation_bottom", eb), ("wet_density", wd),
    ("dry_density", dd), ("cohesion", c), ("angle_of_internal_friction", aif),
    ("compression_index", ci), ("recompression_index", ri),
    ("initial_void_ratio", ivr)]

/-- SoilProfile.get_samples(): for every layer in order, samples its nine
property distributions and stores them in a dict keyed by the layer's name. -/
def SoilProfile.get_samples (p : SoilProfile) (cfg : Config) :
    Except PyError (List (String × List (String × Arr4))) :=
  p.layers.mapM fun layer => do
    let props ← layer.sampleAll cfg
    pure (layer.name, props)

/-- Per-trial Boussinesq expression in the body of
PointLoad.sample_vertical_pressure, as a function of the query point, the
sampled placement and magnitude, and the query elevation:
r = sqrt((x − x_load)² + (y − y_load)²), z = elevation_load − elevation,
Δσz = (3·Q) / (2·π·z²) / (1 + (r/z)²)^(5/2). -/
noncomputable def boussinesqStress (x y x_load y_load elevation_load Q elevation : ℝ) : ℝ :=
  let r := Real.sqrt ((x - x_load) ^ 2 + (y - y_load) ^ 2)
  let z := elevation_load - elevation
  3 * Q / (2 * Real.pi * z ^ 2) / (1 + (r / z) ^ 2) ^ ((5 : ℝ) / 2)

/-- PointLoad.sample_vertical_pressure(x, y, elevations): samples the
placement coordinates and magnitude via the no-argument .sample() calls (the
first of which already raises, see ParameterDistribution.sample), then
evaluates the Boussinesq expression; the result is indexed
[elevation, trial]. The intermediate R = sqrt(r² + elevations.T²) computed by
the source is never used. (numpy broadcasting additionally constrains the
number of query elevations against the array shapes, but execution never
reaches this point: the sample() calls raise first.) -/
noncomputable def PointLoad.sample_vertical_pressure (pl : PointLoad) (cfg : Config)
    (x y : ℚ) (elevations : List ℚ) : Except PyError (List (List ℝ)) := do
  let x_load ← pl.x_load.sampleDefault cfg
  let y_load ← pl.y_load.sampleDefault cfg
  let elevation_load ← pl.elevation_load.sampleDefault cfg
  let Q ← pl.load.sampleDefault cfg
  let xl := x_load.flatten.flatten.flatten
  let yl := y_load.flatten.flatten.flatten
  let el := elevation_load.flatten.flatten.flatten
  let q := Q.flatten.flatten.flatten
  pure (elevations.map fun elevation =>
    (List.range cfg.iterations).map fun t =>
      boussinesqStress (x : ℝ) (y : ℝ) (xl.getD t 0) (yl.getD t 0) (el.getD t 0)
        (q.getD t 0) (elevation : ℝ))

/-- Python references to a `layers` list object: the single module-level
default object created when SoilProfile.__init__ was defined, or a list the
caller supplied. -/
inductive LayersRef where
  | defaultArg
  | supplied (id : ℕ)
deriving DecidableEq

/-- The store of layer-list objects: the contents of the default-argument list
and of every caller-supplied list. -/
structure LayerHeap where
  defaultList : List SoilLayer
  suppliedLists : ℕ → List SoilLayer

/-- Read a layers list through its reference. -/
def LayerHeap.get (h : LayerHeap) : LayersRef → List SoilLayer
  | .defaultArg => h.defaultList
  | .supplied i => h.suppliedLists i

/-- Overwrite the list object a reference designates. -/
def LayerHeap.set (h : LayerHeap) : LayersRef → List SoilLayer → LayerHeap
  | .defaultArg, ls => ⟨ls, h.suppliedLists⟩
  | .supplied i, ls => ⟨h.defaultList, fun j => if j = i then ls else h.suppliedLists j⟩

/-- A constructed SoilProfile as a holder of its layers-list reference:
self.layers = layers binds the attribute to the argument object itself. -/
structure SoilProfileRef where
  layersRef : LayersRef

/-- SoilProfile() without a layers argument: self.layers is bound to the one
default list object, shared by every such construction. -/
def SoilProfile.initDefault : SoilProfileRef := ⟨.defaultArg⟩

/-- SoilProfile(layers=some_list): self.layers is bound to the caller's list. -/
def SoilProfile.initSupplied (i : ℕ) : SoilProfileRef := ⟨.supplied i⟩

/-- add_layer on a profile holding a list reference: mutates the referenced
list object in place (append then sort, see addLayerList). -/
def SoilProfileRef.add_layer (p : SoilProfileRef) (h : LayerHeap) (l : SoilLayer) :
    Except PyError LayerHeap :=
  (addLayerList (h.get p.layersRef) l).map fun ls => h.set p.layersRef ls

/-! ### Concrete objects used in the evaluations below -/

/-- PointLoad(100, 100, 0, 0) from the test file. -/
def load1 : PointLoad :=
  PointLoad.init (.scalar 100) (.scalar 100) (.scalar 0) (.scalar 0)

/-- WaterTable(0, 0.0) constructed with bare scalars, as in the test file. -/
def wt1 : WaterTable := WaterTable.init (.scalar 0) (.scalar 0)

/-- WaterTable(Constant(0), Constant(0)): water table at elevation 0 with zero
gradient, both given as distributions. -/
def wtC : WaterTable :=
  WaterTable.init (.dist (Constant.init 0 config rng0).1)
    (.dist (Constant.init 0 config rng0).1)

/-- PointLoad(Constant(100), Constant(0), Constant(0), Constant(0)): the load
of the specification's concrete Boussinesq example. -/
def loadC : PointLoad :=
  PointLoad.init (.dist (Constant.init 100 config rng0).1)
    (.dist (Constant.init 0 config rng0).1) (.dist (Constant.init 0 config rng0).1)
    (.dist (Constant.init 0 config rng0).1)

/-! ### Sortedness of the layer insertion -/

/-- Descending order on layers by their raw-scalar elevation_top. -/
def layerDescOrder (a b : SoilLayer) : Prop := b.topKey ≤ a.topKey

/-- Inserting a layer adds no layer other than the inserted one. -/
theorem mem_insertLayerDesc {y l : SoilLayer} {L : List SoilLayer}
    (h : y ∈ insertLayerDesc l L) : y = l ∨ y ∈ L := by
  induction L with
  | nil => simpa [insertLayerDesc] using h
  | cons a t ih =>
    by_cases hc : l.topKey ≤ a.topKey
    · simp only [insertLayerDesc, if_pos hc, List.mem_cons] at h
      rcases h with h | h
      · exact Or.inr (by simp [h])
      · rcases ih h with h1 | h1
        · exact Or.inl h1
        · exact Or.inr (by simp [h1])
    · simp only [insertLayerDesc, if_neg hc, List.mem_cons] at h
      rcases h with h | h
      · exact Or.inl h
      · exact Or.inr (by simpa using h)

/-- The stable descending insertion preserves descending sortedness. -/
theorem sorted_insertLayerDesc (l : SoilLayer) {L : List SoilLayer}
    (h : List.Sorted layerDescOrder L) :
    List.Sorted layerDescOrder (insertLayerDesc l L) := by
  induction L with
  | nil => simp [insertLayerDesc]
  | cons a t ih =>
    rw [List.sorted_cons] at h
    obtain ⟨ha, ht⟩ := h
    by_cases hc : l.topKey ≤ a.topKey
    · rw [insertLayerDesc, if_pos hc, List.sorted_cons]
      refine ⟨fun y hy => ?_, ih ht⟩
      rcases mem_insertLayerDesc hy with rfl | hyt
      · exact hc
      · exact ha y hyt
    · rw [insertLayerDesc, if_neg hc, List.sorted_cons]
      refine ⟨fun y hy => ?_, List.sorted_cons.mpr ⟨ha, ht⟩⟩
      rcases List.mem_cons.mp hy with rfl | hyt
      · exact le_of_lt (lt_of_not_le hc)
      · exact le_trans (ha y hyt) (le_of_lt (lt_of_not_le hc))

/-- Folding the insertion over any list, from any sorted accumulator, yields a
descending-sorted list. -/
theorem sorted_foldl_insertLayerDesc (ls : List SoilLayer) :
    ∀ acc, List.Sorted layerDescOrder acc →
      List.Sorted layerDescOrder (ls.foldl (fun acc l => insertLayerDesc l acc) acc) := by
  induction ls with
  | nil => intro acc h; simpa using h
  | cons x t ih => intro acc h; exact ih _ (sorted_insertLayerDesc x h)

/-- The full sort always produces a descending-sorted list. -/
theorem sorted_sortLayersDesc (ls : List SoilLayer) :
    List.Sorted layerDescOrder (sortLayersDesc ls) :=
  sorted_foldl_insertLayerDesc ls [] (by simp)

/-! ### Claim theorems -/

/-- C2: the claim says sample() returns a length-N vector, every element v for
Constant(v), and that Constant never consults the random source. Evaluated at
the failing input Constant(5.0).sample(): the constructor indeed leaves the
generator untouched, but the sample() call raises TypeError — len() is applied
to the scalar default arguments because the scalar-to-list loop rebinds only
its loop variable — so no vector is ever returned. -/
theorem c2_constant_sample_raises_type_error :
    (Constant.init 5 config rng0).2 = rng0 ∧
    (Constant.init 5 config rng0).1.sampleDefault config = .error .typeError :=
  ⟨rfl, rfl⟩

/-- C3: the claim says draws happen once at construction and repeated sample()
calls return equal vectors. Evaluated at d = Uniform(0, 1): construction does
consume the generator (its position advances by the N = 1000 trial draws) and
caches the vector, but d.sample() raises TypeError (len() of the scalar
default arguments), so no call returns a vector at all and get_samples()
likewise cannot return twice-identical draws. -/
theorem c3_uniform_cached_but_sample_raises :
    ((Uniform.init 0 1 config rng0).2).pos = 1000 ∧
    (Uniform.init 0 1 config rng0).1.sampleDefault config = .error .typeError :=
  ⟨rfl, rfl⟩

/-- C4 counterexample: Uniform(5, 1), with lower > upper, does not fail at
construction — numpy's Generator.uniform validates only finiteness of the
range — and silently caches a full vector of N = 1000 degenerate draws,
contradicting the claim that it fails with an InvalidParameter error. -/
theorem c4_uniform_reversed_bounds_constructs :
    ((Uniform.init 5 1 config rng0).1.sample_values).length = config.iterations := by
  simp [Uniform.init, Rng.draw, ParameterDistribution.sample_values, config]

/-- C4 (amended): Normal and LogNormal with std < 0 do fail at construction,
but with numpy's ValueError (the codebase defines no InvalidParameter error),
while Uniform with lower > upper constructs silently, caching a full length-N
vector drawn from the reversed range. -/
theorem c4_numpy_validation (mean std mu sigma lower upper : ℚ) (rng : Rng)
    (hn : std < 0) (hl : sigma < 0) :
    Normal.init mean std config rng = .error .valueError ∧
    LogNormal.init mu sigma config rng = .error .valueError ∧
    ((Uniform.init lower upper config rng).1.sample_values).length = config.iterations := by
  refine ⟨?_, ?_, ?_⟩
  · rw [Normal.init, if_pos hn]
  · rw [LogNormal.init, if_pos hl]
  · simp [Uniform.init, Rng.draw, ParameterDistribution.sample_values, config]

/-- Witness for c4_numpy_validation at mean 0, std −1, mu 0, sigma −1,
lower 5, upper 1. -/
theorem c4_numpy_validation_witness :
    Normal.init 0 (-1) config rng0 = .error .valueError ∧
    LogNormal.init 0 (-1) config rng0 = .error .valueError ∧
    ((Uniform.init 5 1 config rng0).1.sample_values).length = config.iterations :=
  c4_numpy_validation 0 (-1) 0 (-1) 5 1 rng0 (by norm_num) (by norm_num)

/-- C5: the claim says a bare scalar passed to SoilLayer, PointLoad or
WaterTable is wrapped as a Constant distribution. Evaluated at the test file's
own constructions: SoilLayer("A", 100, 90, 20, 18, 0, 35, 0.33, 0.03, 1)
never completes construction at all — its wrap loop evaluates
Constant(self.name) and np.ones(N) * string raises TypeError — while
PointLoad(100, 100, 0, 0) and WaterTable(0, 0.0) do construct but their
fields keep the raw scalars, not Constant distributions: the wrap assignment
rebinds only the loop variable. -/
theorem c5_scalar_fields_not_wrapped :
    SoilLayer.init "A" (.scalar 100) (.scalar 90) (.scalar 20) (.scalar 18)
        (.scalar 0) (.scalar 35) (.scalar (33 / 100)) (.scalar (3 / 100)) (.scalar 1)
      = .error .typeError ∧
    load1.load = .scalar 100 ∧
    load1.load.isParameterDistribution = false ∧
    wt1.water_table_elevation = .scalar 0 ∧
    wt1.water_table_elevation.isParameterDistribution = false :=
  ⟨rfl, rfl, rfl, rfl, rfl⟩

/-- C6: the claim says a scalar pore_water_pressure is wrapped as Constant and
a PoreWaterPressure model is stored unchanged. The scalar half holds, but a
WaterTable model is also fed to Constant — the guard isinstance-checks
against ParameterDistribution, not PoreWaterPressure — and Constant.__init__
then raises TypeError multiplying np.ones(N) by the model object, so
construction with a model fails instead of storing it. -/
theorem c6_pore_water_pressure_wrapping :
    SoilProfile.init config rng0 [] (.scalar 5) =
      .ok ⟨[], (Constant.init 5 config rng0).1⟩ ∧
    SoilProfile.init config rng0 [] (.model wtC) = .error .typeError :=
  ⟨rfl, rfl⟩

/-- C7: the claim says every add_layer sequence leaves the layer list in
descending elevation_top order, and in particular that inserting layers A
(top 100) and B (top 90) in reverse order yields [A, B]. No such sequence can
ever run: constructing either layer already raises TypeError in
SoilLayer.__init__'s wrap loop — Constant(self.name) evaluates
np.ones(N) * string — before add_layer is reached, so the claimed ordering is
unobservable. -/
theorem c7_layers_unconstructible :
    SoilLayer.init "B" (.scalar 90) (.scalar 80) (.scalar 20) (.scalar 18)
        (.scalar 0) (.scalar 35) (.scalar (33 / 100)) (.scalar (3 / 100)) (.scalar 1)
      = .error .typeError ∧
    SoilLayer.init "A" (.scalar 100) (.scalar 90) (.scalar 20) (.scalar 18)
        (.scalar 0) (.scalar 35) (.scalar (33 / 100)) (.scalar (3 / 100)) (.scalar 1)
      = .error .typeError :=
  ⟨rfl, rfl⟩

/-- C8: the claim says get_samples() returns one entry per layer with nine
named length-N property vectors. No profile with a layer is constructible:
building the layer already raises TypeError in SoilLayer.__init__'s wrap loop
(Constant of the string name), before SoilProfile or get_samples is ever
reached; and the only constructible profiles, those without layers, return
the empty mapping. -/
theorem c8_layer_construction_raises :
    SoilLayer.init "clay" (.dist (Constant.init 10 config rng0).1)
        (.dist (Constant.init 0 config rng0).1) (.dist (Constant.init 20 config rng0).1)
        (.dist (Constant.init 18 config rng0).1) (.dist (Constant.init 5 config rng0).1)
        (.dist (Constant.init 35 config rng0).1)
        (.dist (Constant.init (33 / 100) config rng0).1)
        (.dist (Constant.init (3 / 100) config rng0).1)
        (.dist (Constant.init 1 config rng0).1)
      = .error .typeError ∧
    (SoilProfile.init config rng0 [] (.scalar 0)).bind
      (fun p => p.get_samples config) = .ok [] :=
  ⟨rfl, rfl⟩

/-- C9: the claim says WaterTable.sample(elevation) returns the per-trial
hydrostatic plus artesian pressure. Evaluated at WaterTable(Constant(0),
Constant(0)).sample(0): the call raises TypeError — the water-table
elevation's .sample() fails on its scalar default arguments — instead of
returning the zero vector. The per-trial expression the body would compute is
nonetheless the claimed one: it vanishes when the query elevation equals the
sampled water-table elevation with zero gradient, and above the water table
(elevation 1, table at 0) it is the negative value −9.81, not clamped to 0. -/
theorem c9_water_table_sample_raises :
    wtC.sample config 0 = .error .typeError ∧
    (∀ w : ℚ, waterTablePressure w w 0 = 0) ∧
    waterTablePressure 0 1 0 = -(981 / 100) := by
  refine ⟨rfl, fun w => ?_, ?_⟩
  · simp [waterTablePressure]
  · norm_num [waterTablePressure, WaterTable.water_unit_weight]

/-- C1: the claim says sample_vertical_pressure returns the Boussinesq stress
field, ≈47.75 at its concrete example. Evaluated at
PointLoad(Constant(100), Constant(0), Constant(0), Constant(0)) queried at
x = 0, y = 0, elevations = [−1]: the call raises TypeError — the first
placement .sample() fails on its scalar default arguments — instead of
returning the field. The per-trial Boussinesq expression in the body does
match the claimed formula: at that input it evaluates to
3·100/(2·π·1²)/(1 + 0)^(5/2) = 150/π ≈ 47.75. -/
theorem c1_sample_vertical_pressure_raises :
    loadC.sample_vertical_pressure config 0 0 [-1] = .error .typeError ∧
    boussinesqStress 0 0 0 0 0 100 (-1) = 150 / Real.pi := by
  constructor
  · rfl
  · show 3 * 100 / (2 * Real.pi * ((0:ℝ) - (-1)) ^ 2) /
        (1 + (Real.sqrt (((0:ℝ) - 0) ^ 2 + ((0:ℝ) - 0) ^ 2) / ((0:ℝ) - (-1))) ^ 2)
          ^ ((5 : ℝ) / 2) = 150 / Real.pi
    have hpi : Real.pi ≠ 0 := Real.pi_ne_zero
    rw [show (((0:ℝ) - 0) ^ 2 + ((0:ℝ) - 0) ^ 2) = 0 by norm_num, Real.sqrt_zero,
      show ((0:ℝ) - (-1)) = 1 by norm_num]
    rw [show ((0:ℝ) / 1) = 0 by norm_num, show ((1:ℝ) + 0 ^ 2) = 1 by norm_num,
      Real.one_rpow, one_pow, mul_one, div_one]
    rw [div_eq_div_iff (mul_ne_zero two_ne_zero hpi) hpi]
    ring

/-- C10: the claim says two profiles constructed without a layers argument
have disjoint layer lists. They do not: every parameterless construction
binds self.layers to the single default list object created when __init__
was defined, so the two attributes are one shared object — whatever list
state is reached through one profile's binding is exactly what the other
profile reads, while a profile constructed with its own list is unaffected.
(The claim's trigger p1.add_layer(layer) can, moreover, never be invoked,
since no SoilLayer is constructible; the aliasing itself is what refutes the
disjoint-state reading.) -/
theorem c10_default_layers_shared :
    SoilProfile.initDefault.layersRef = LayersRef.defaultArg ∧
    (∀ (h : LayerHeap) (ls : List SoilLayer),
      (h.set SoilProfile.initDefault.layersRef ls).get
        SoilProfile.initDefault.layersRef = ls) ∧
    (∀ (h : LayerHeap) (ls : List SoilLayer) (i : ℕ),
      (h.set SoilProfile.initDefault.layersRef ls).get
        (SoilProfile.initSupplied i).layersRef = h.suppliedLists i) :=
  ⟨rfl, fun _ _ => rfl, fun _ _ _ => rfl⟩

end Geotech
